import Mathlib

/-!
Verification of the Kingslist dispatch core against its source.

The embedding models the dispatch engine of `src/test.js` (`handleDispatch`,
`calculateDelay`, `updateDispatchStatus`), the retry step of the `src/test2.js`
variant, the batch-fetch guard of `src/services/dispatchService.js`
(`src/unnamed/part_001`), and the metrics counters of `kingschat.js`
(`src/unnamed/part_002`).

React state setters (`setProgress`, `setProcessedMessages`, `setRetryCounts`)
are modelled as immediate updates on an explicit state record threaded through
the loop; awaited promises that may reject with `AbortError` are modelled by
outcome values supplied by an environment.  External effects (sender calls,
periodic status syncs, the final report and the session-storage completion
marker) are recorded as traces/fields of the result so that temporal claims
about them can be stated.
-/

namespace Kingslist

/-- One prepared message, as produced by `prepareMessagesForDispatch` and the
templating step in `handleDispatch` (test.js lines 173-178).  The engine only
inspects `kc_id`; `body` is the rendered payload. -/
structure Msg where
  kc_id : Nat
  body : String
deriving DecidableEq

/-- The `RATE_LIMIT_CONFIG` shape of test.js lines 6-13. -/
structure RateLimitConfig where
  BASE_DELAY_MS : Nat
  MAX_RETRY_ATTEMPTS : Nat
  BATCH_SIZE : Nat
  RETRY_EXPONENTIAL_BACKOFF : Bool
  MAX_RETRY_DELAY_MS : Nat
  STATUS_UPDATE_INTERVAL : Nat
deriving DecidableEq

/-- The literal configuration of test.js lines 6-13. -/
def RATE_LIMIT_CONFIG : RateLimitConfig :=
  { BASE_DELAY_MS := 1500
    MAX_RETRY_ATTEMPTS := 3
    BATCH_SIZE := 5
    RETRY_EXPONENTIAL_BACKOFF := true
    MAX_RETRY_DELAY_MS := 30000
    STATUS_UPDATE_INTERVAL := 5000 }

/-- `calculateDelay` of test.js lines 55-63, parameterized by the config record
it reads. -/
def calculateDelay (cfg : RateLimitConfig) (attempt : Nat) : Nat :=
  if !cfg.RETRY_EXPONENTIAL_BACKOFF then
    cfg.BASE_DELAY_MS
  else
    min (cfg.BASE_DELAY_MS * 2 ^ attempt) cfg.MAX_RETRY_DELAY_MS

/-- Outcome of one awaited `sendMessage` call as seen by the `try`/`catch` of
test.js lines 219-270: the promise resolves with a `res` whose `success` field
is checked, or rejects with an error that is either an `AbortError` or carries
an HTTP status that may be 429. -/
inductive SendResult where
  | ok (success : Bool)
  | err (status429 : Bool)
  | abortError
deriving DecidableEq

/-- Environment of one `handleDispatch` run: the server batch, the sender's
behaviour per (message, current retry count), whether the interruptible
pre-send delay (test.js lines 220-226) rejects with `AbortError`, whether the
periodic `updateDispatchStatus` at a given batch index fails, and whether the
final forced status update fails. -/
structure Env where
  batchMessages : Option (List Msg)
  sender : Msg → Nat → SendResult
  abortsBefore : Msg → Nat → Bool
  syncFails : Nat → Bool
  finalReportFails : Bool

/-- The component state mutated by `handleDispatch`: the `progress` counters
(test.js lines 25-31), `retryCounts`, `processedMessages` and the
`dispatching` flag, plus the abort signal of `abortControllerRef`. -/
structure AppState where
  dispatching : Bool
  current : Nat
  total : Nat
  success : Nat
  failed : Nat
  rateLimited : Nat
  retryCounts : Nat → Nat
  processedMessages : List Nat
  aborted : Bool

/-- `setProcessedMessages(prev => new Set(prev).add(id))`: insert keeping the
list duplicate-free, so `length` is the set's `size`. -/
def addProcessed (l : List Nat) (id : Nat) : List Nat :=
  if id ∈ l then l else l ++ [id]

/-- The `setRetryCounts` updater of test.js lines 203-209: every member of the
batch gets its count incremented. -/
def bumpRetryCounts (rc : Nat → Nat) (batch : List Msg) : Nat → Nat :=
  batch.foldl (fun acc m => fun id => if id = m.kc_id then acc id + 1 else acc id) rc

/-- Result of the inner `for (const msg of batchToProcess)` loop: the updated
state, the updated remaining queue (retries are unshifted onto it), and the
identifiers passed to the sender, in call order. -/
structure ItemsResult where
  st : AppState
  rem : List Msg
  sends : List Nat

/-- The inner `for` loop of test.js lines 211-271.  Items already in
`processedMessages` (or seen after the signal aborted) are skipped; the
pre-send delay may reject with `AbortError` (break before any sender call);
a resolved `res.success` adds to the processed set and counters; a rejected
send increments `rateLimited` on HTTP 429 and either unshifts the item onto
the remaining queue (`retryCount < MAX_RETRY_ATTEMPTS`) or counts it failed;
an `AbortError` from the send breaks out of the loop. -/
def processItems (env : Env) (st : AppState) (batch : List Msg) (rem : List Msg) :
    ItemsResult :=
  match batch with
  | [] => ⟨st, rem, []⟩
  | msg :: rest =>
    if msg.kc_id ∈ st.processedMessages ∨ st.aborted = true then
      processItems env st rest rem
    else
      let retryCount := st.retryCounts msg.kc_id
      if env.abortsBefore msg retryCount = true then
        ⟨{ st with aborted := true }, rem, []⟩
      else
        match env.sender msg retryCount with
        | .abortError => ⟨{ st with aborted := true }, rem, [msg.kc_id]⟩
        | .ok true =>
          let st1 := { st with
            processedMessages := addProcessed st.processedMessages msg.kc_id
            current := st.current + 1
            success := st.success + 1 }
          let r := processItems env st1 rest rem
          ⟨r.st, r.rem, msg.kc_id :: r.sends⟩
        | .ok false =>
          let r := processItems env st rest rem
          ⟨r.st, r.rem, msg.kc_id :: r.sends⟩
        | .err rl =>
          let st1 := if rl then { st with rateLimited := st.rateLimited + 1 } else st
          if retryCount < RATE_LIMIT_CONFIG.MAX_RETRY_ATTEMPTS then
            let r := processItems env st1 rest (msg :: rem)
            ⟨r.st, r.rem, msg.kc_id :: r.sends⟩
          else
            let st2 := { st1 with current := st1.current + 1, failed := st1.failed + 1 }
            let r := processItems env st2 rest rem
            ⟨r.st, r.rem, msg.kc_id :: r.sends⟩

/-- Result of the `while` loop: final state, sender-call trace, and the trace
of periodic status syncs as (batch index, sync failed?) pairs. -/
structure RunResult where
  st : AppState
  sends : List Nat
  syncs : List (Nat × Bool)

/-- The `while (remainingMessages.length > 0 && !aborted)` loop of test.js
lines 186-284: slice a batch of `BATCH_SIZE`, bump every batch member's retry
count, run the inner loop, and after every batch whose index is divisible by 3
(and while not aborted) issue a best-effort status sync whose failure is
caught and logged, leaving the state untouched.  `fuel` bounds the number of
iterations; every claim is either fuel-generic or evaluated with ample fuel. -/
def dispatchLoop (env : Env) (fuel : Nat) (st : AppState) (remaining : List Msg)
    (attempt : Nat) : RunResult :=
  match fuel with
  | 0 => ⟨st, [], []⟩
  | Nat.succ fuel' =>
    if remaining = [] ∨ st.aborted = true then
      ⟨st, [], []⟩
    else
      let currentBatch := remaining.take RATE_LIMIT_CONFIG.BATCH_SIZE
      let rem0 := remaining.drop RATE_LIMIT_CONFIG.BATCH_SIZE
      let st1 := { st with retryCounts := bumpRetryCounts st.retryCounts currentBatch }
      let b := processItems env st1 currentBatch rem0
      let syncsHere :=
        if attempt % 3 = 0 ∧ b.st.aborted = false then [(attempt, env.syncFails attempt)]
        else []
      let r := dispatchLoop env fuel' b.st b.rem (attempt + 1)
      ⟨r.st, b.sends ++ r.sends, syncsHere ++ r.syncs⟩

/-- The `isComplete` computation of `updateDispatchStatus`, test.js lines
115-117. -/
def isComplete (forceComplete : Bool) (uniqueProcessed failed total : Nat) : Bool :=
  forceComplete
    || (decide (uniqueProcessed ≥ total) && decide (failed = 0))
    || (decide (failed > 0) && decide (uniqueProcessed + failed ≥ total))

/-- The wire `status` field sent by `updateDispatchStatus` of test.js line 129:
2 when complete, 1 when in progress. -/
def updateDispatchStatusCode (forceComplete : Bool) (uniqueProcessed failed total : Nat) :
    Nat :=
  if isComplete forceComplete uniqueProcessed failed total then 2 else 1

/-- The wire `status` field sent by the `updateDispatchStatus` variant of
test2.js line 72: `failed > 0 && uniqueProcessed < total ? 1 : 2`. -/
def updateDispatchStatusCode2 (uniqueProcessed failed total : Nat) : Nat :=
  if failed > 0 ∧ uniqueProcessed < total then 1 else 2

/-- The completion predicate in the words of the spec (§4.4): complete when
`processedCount ≥ total` and `failed` is empty, or when
`processedCount + |failed| ≥ total`.  Stated from the spec for comparison with
the code's `isComplete`. -/
def specCompletionPredicate (processedCount failedCount total : Nat) : Prop :=
  (processedCount ≥ total ∧ failedCount = 0) ∨ (processedCount + failedCount ≥ total)

instance (p f t : Nat) : Decidable (specCompletionPredicate p f t) := by
  unfold specCompletionPredicate; infer_instance

/-- Terminal outcome of one `handleDispatch` invocation. -/
inductive Outcome where
  | rejected
  | dispatchError (msg : String)
  | cancelled
  | completed
deriving DecidableEq

/-- Observable result of `handleDispatch`: final component state, terminal
outcome, sender-call and sync traces, the wire status of the final report when
one was sent, and whether the `dispatch_status_` session-storage key was set
to `"completed"`. -/
structure DispatchResult where
  st : AppState
  outcome : Outcome
  sends : List Nat
  syncs : List (Nat × Bool)
  finalStatus : Option Nat
  completedMarker : Bool

/-- The state reset performed at the top of `handleDispatch`, test.js lines
156-161. -/
def resetState (st : AppState) : AppState :=
  { st with
    dispatching := true
    current := 0
    total := 0
    success := 0
    failed := 0
    rateLimited := 0
    retryCounts := fun _ => 0
    processedMessages := [] }

/-- `handleDispatch` of test.js lines 150-321.  The guard of line 151 rejects
when a run is already dispatching (running or paused) or partial progress
exists.  `fetchDispatchBatch` (dispatchService.js lines 4-29) throws on a
fetch failure or an empty/missing message list, caught by the outer `catch`.
Otherwise the batch loop runs; if the signal aborted, the final report and the
completion marker are skipped (lines 286-309); otherwise the final
`updateDispatchStatus(dmsg_id, true)` is forced complete, and its failure is a
dispatch-level error with no completion marker. -/
def handleDispatch (env : Env) (fuel : Nat) (st0 : AppState) : DispatchResult :=
  if st0.dispatching = true ∨ st0.processedMessages ≠ [] then
    ⟨st0, .rejected, [], [], none, false⟩
  else
    let st1 := resetState st0
    match env.batchMessages with
    | none =>
      ⟨{ st1 with dispatching := false },
        .dispatchError "Failed to fetch dispatch batch", [], [], none, false⟩
    | some [] =>
      ⟨{ st1 with dispatching := false },
        .dispatchError "No messages available in this batch", [], [], none, false⟩
    | some (m :: ms) =>
      let msgs := m :: ms
      let st2 := { st1 with total := msgs.length }
      let r := dispatchLoop env fuel st2 msgs 0
      if r.st.aborted = true then
        ⟨{ r.st with dispatching := false }, .cancelled, r.sends, r.syncs, none, false⟩
      else
        let wire :=
          updateDispatchStatusCode true r.st.processedMessages.length r.st.failed r.st.total
        if env.finalReportFails = true then
          ⟨{ r.st with dispatching := false },
            .dispatchError "Failed to update status", r.sends, r.syncs, some wire, false⟩
        else
          ⟨{ r.st with dispatching := false },
            .completed, r.sends, r.syncs, some wire, true⟩

/-- The progress counters touched by the test2.js retry step. -/
structure Progress2 where
  current : Nat
  failed : Nat
deriving DecidableEq

/-- The failure handling of the test2.js variant, lines 151-160: with that
variant's `RATE_LIMIT.MAX_RETRY_ATTEMPTS = 1` (line 97), an item whose retry
count is below the limit is `push`ed onto the END of `remainingMessages`,
otherwise `current` and `failed` are incremented. -/
def retryFailedMessage2 (retryCounts : Nat → Nat) (p : Progress2) (msg : Msg)
    (remaining : List Msg) : Progress2 × List Msg :=
  if retryCounts msg.kc_id < 1 then
    (p, remaining ++ [msg])
  else
    ({ current := p.current + 1, failed := p.failed + 1 }, remaining)

/-- The module-level metrics counters of kingschat.js lines 66-68. -/
structure Metrics where
  successCount : Nat
  errorCount : Nat
deriving DecidableEq

/-- What `getMessageMetrics` (kingschat.js lines 70-75) reports; the
floating-point `successRate` display field is omitted. -/
structure MetricsView where
  successCount : Nat
  errorCount : Nat
  totalProcessed : Nat
deriving DecidableEq

/-- Outcome of the underlying `kingsChatWebSdk.sendMessage` promise. -/
inductive SdkResult where
  | resolved
  | rejected (emsg : String)
deriving DecidableEq

/-- `sendMessage` of kingschat.js lines 82-108, restricted to its effect on
the module counters and its result: a resolved SDK call increments
`successCount` and returns, a rejected one increments `errorCount` and
re-throws a wrapped error. -/
def sendMessage (m : Metrics) (r : SdkResult) : Metrics × Except String Unit :=
  match r with
  | .resolved => ({ m with successCount := m.successCount + 1 }, .ok ())
  | .rejected e =>
    ({ m with errorCount := m.errorCount + 1 },
      .error ("Failed to send message: " ++ e))

/-- `getMessageMetrics` of kingschat.js lines 70-75 (counters and their sum). -/
def getMessageMetrics (m : Metrics) : MetricsView :=
  { successCount := m.successCount
    errorCount := m.errorCount
    totalProcessed := m.successCount + m.errorCount }

/-- `resetMessageMetrics` of kingschat.js lines 77-80. -/
def resetMessageMetrics : Metrics :=
  { successCount := 0, errorCount := 0 }

/-- A sequence of `sendMessage` calls threading the module counters, as the
process performs across jobs. -/
def runSends (m : Metrics) (rs : List SdkResult) : Metrics :=
  rs.foldl (fun acc r => (sendMessage acc r).1) m

end Kingslist

namespace Kingslist

/-! Concrete environments and states used by witnesses, counterexamples and
scenario claims. -/

/-- The component state at first render: nothing dispatching, all counters
zero. -/
def initialAppState : AppState :=
  { dispatching := false
    current := 0
    total := 0
    success := 0
    failed := 0
    rateLimited := 0
    retryCounts := fun _ => 0
    processedMessages := []
    aborted := false }

/-- Build a message list from identifiers. -/
def msgsOf (ids : List Nat) : List Msg := ids.map (fun i => ⟨i, ""⟩)

/-- Environment for the C7 scenario: five messages; the sender rejects with
HTTP 429 for item 3 on its first attempt and resolves on every other call. -/
def rateLimitEnv : Env :=
  { batchMessages := some (msgsOf [1, 2, 3, 4, 5])
    sender := fun m rc => if m.kc_id = 3 ∧ rc = 1 then .err true else .ok true
    abortsBefore := fun _ _ => false
    syncFails := fun _ => false
    finalReportFails := false }

/-- Environment for the C6 scenario: ten messages; the interruptible pre-send
wait for item 3 rejects with `AbortError` (cancellation observed after two
items were processed). -/
def cancelEnv : Env :=
  { batchMessages := some (msgsOf [1, 2, 3, 4, 5, 6, 7, 8, 9, 10])
    sender := fun _ _ => .ok true
    abortsBefore := fun m _ => m.kc_id = 3
    syncFails := fun _ => false
    finalReportFails := false }

/-- Environment for the C2 counterexample: a single message whose send
resolves with `success = false`, so it is neither processed, failed, nor
re-enqueued. -/
def softFailEnv : Env :=
  { batchMessages := some (msgsOf [1])
    sender := fun _ _ => .ok false
    abortsBefore := fun _ _ => false
    syncFails := fun _ => false
    finalReportFails := false }

/-- Environment for the C9 scenario: twenty messages, every send resolves,
and the periodic status sync after the first batch fails. -/
def syncFailEnv : Env :=
  { batchMessages := some (msgsOf [1, 2, 3, 4, 5, 6, 7, 8, 9, 10,
      11, 12, 13, 14, 15, 16, 17, 18, 19, 20])
    sender := fun _ _ => .ok true
    abortsBefore := fun _ _ => false
    syncFails := fun a => a = 0
    finalReportFails := false }

/-- Environment whose sender always rejects without a rate-limit signal; used
by the C4 witness. -/
def alwaysErrEnv : Env :=
  { batchMessages := some (msgsOf [3])
    sender := fun _ _ => .err false
    abortsBefore := fun _ _ => false
    syncFails := fun _ => false
    finalReportFails := false }

/-- A state mid-run whose processed set already holds item 7; used by the C1
witness. -/
def processedSevenState : AppState :=
  { initialAppState with retryCounts := fun _ => 1, processedMessages := [7] }

/-- A state in which item 3 has one recorded attempt; used by the C4
witness. -/
def oneAttemptState : AppState :=
  { initialAppState with retryCounts := fun id => if id = 3 then 1 else 0 }

/-- A state whose abort signal has fired; used by the C6 witness. -/
def abortedState : AppState :=
  { initialAppState with aborted := true }

/-! Shared helper lemmas. -/

/-- Membership survives `addProcessed`. -/
theorem addProcessed_mem {l : List Nat} {id : Nat} (x : Nat) (h : id ∈ l) :
    id ∈ addProcessed l x := by
  unfold addProcessed
  split
  · exact h
  · exact List.mem_append_left _ h

/-- The inner item loop never removes an identifier from the processed set. -/
theorem processItems_processed_mono (env : Env) (batch : List Msg) :
    ∀ (st : AppState) (rem : List Msg) (id : Nat), id ∈ st.processedMessages →
      id ∈ (processItems env st batch rem).st.processedMessages := by
  induction batch with
  | nil =>
    intro st rem id h
    exact h
  | cons msg rest ih =>
    intro st rem id h
    simp only [processItems]
    split
    · exact ih st rem id h
    · split
      · exact h
      · split
        · exact h
        · exact ih _ rem id (addProcessed_mem _ h)
        · exact ih _ rem id h
        · split
          · refine ih _ _ id ?_
            split <;> exact h
          · refine ih _ _ id ?_
            split <;> exact h

/-- The inner item loop never passes an already-processed identifier to the
sender. -/
theorem processItems_no_resend (env : Env) (batch : List Msg) :
    ∀ (st : AppState) (rem : List Msg) (id : Nat), id ∈ st.processedMessages →
      id ∉ (processItems env st batch rem).sends := by
  induction batch with
  | nil =>
    intro st rem id _ hmem
    simp [processItems] at hmem
  | cons msg rest ih =>
    intro st rem id h
    simp only [processItems]
    split
    · exact ih st rem id h
    · rename_i hcond
      have hne : id ≠ msg.kc_id := by
        intro he
        exact hcond (Or.inl (he ▸ h))
      split
      · simp
      · split
        · simpa using hne
        · intro hmem
          rcases List.mem_cons.mp hmem with he | hr
          · exact hne he
          · exact ih _ rem id (addProcessed_mem _ h) hr
        · intro hmem
          rcases List.mem_cons.mp hmem with he | hr
          · exact hne he
          · exact ih _ rem id h hr
        · split
          · intro hmem
            rcases List.mem_cons.mp hmem with he | hr
            · exact hne he
            · refine ih _ _ id ?_ hr
              split <;> exact h
          · intro hmem
            rcases List.mem_cons.mp hmem with he | hr
            · exact hne he
            · refine ih _ _ id ?_ hr
              split <;> exact h

/-- Across the whole batch loop, an identifier already in the processed set is
never sent again and stays in the set. -/
theorem dispatchLoop_no_resend (env : Env) (fuel : Nat) :
    ∀ (st : AppState) (rem : List Msg) (a id : Nat), id ∈ st.processedMessages →
      id ∉ (dispatchLoop env fuel st rem a).sends ∧
      id ∈ (dispatchLoop env fuel st rem a).st.processedMessages := by
  induction fuel with
  | zero =>
    intro st rem a id h
    exact ⟨by simp [dispatchLoop], h⟩
  | succ fuel ih =>
    intro st rem a id h
    simp only [dispatchLoop]
    split
    · exact ⟨by simp, h⟩
    · have hmono := processItems_processed_mono env
        (rem.take RATE_LIMIT_CONFIG.BATCH_SIZE)
        { st with retryCounts := bumpRetryCounts st.retryCounts (rem.take RATE_LIMIT_CONFIG.BATCH_SIZE) }
        (rem.drop RATE_LIMIT_CONFIG.BATCH_SIZE) id h
      refine ⟨?_, (ih _ _ _ id hmono).2⟩
      intro hmem
      rcases List.mem_append.mp hmem with hb | hr
      · exact processItems_no_resend env
          (rem.take RATE_LIMIT_CONFIG.BATCH_SIZE)
          { st with retryCounts := bumpRetryCounts st.retryCounts (rem.take RATE_LIMIT_CONFIG.BATCH_SIZE) }
          (rem.drop RATE_LIMIT_CONFIG.BATCH_SIZE) id h hb
      · exact (ih _ _ _ id hmono).1 hr

end Kingslist

namespace Kingslist

/-- Once the abort signal is observed, the inner item loop skips every
remaining item: state, queue and sender trace are untouched. -/
theorem processItems_aborted (env : Env) (batch : List Msg) :
    ∀ (st : AppState) (rem : List Msg), st.aborted = true →
      processItems env st batch rem = ⟨st, rem, []⟩ := by
  induction batch with
  | nil =>
    intro st rem _
    rfl
  | cons msg rest ih =>
    intro st rem h
    simp only [processItems]
    rw [if_pos (Or.inr h)]
    exact ih st rem h

/-- Once the abort signal is observed, the batch loop stops at once. -/
theorem dispatchLoop_aborted (env : Env) (fuel : Nat) (st : AppState)
    (rem : List Msg) (a : Nat) (h : st.aborted = true) :
    dispatchLoop env fuel st rem a = ⟨st, [], []⟩ := by
  cases fuel with
  | zero => rfl
  | succ fuel =>
    simp only [dispatchLoop]
    rw [if_pos (Or.inr h)]

/-- The inner item loop never reads the periodic-sync behaviour. -/
theorem processItems_syncFails_irrel (env : Env) (f : Nat → Bool) (batch : List Msg) :
    ∀ (st : AppState) (rem : List Msg),
      processItems { env with syncFails := f } st batch rem
        = processItems env st batch rem := by
  induction batch with
  | nil =>
    intro st rem
    rfl
  | cons msg rest ih =>
    intro st rem
    simp only [processItems]
    split
    · exact ih st rem
    · split
      · rfl
      · split
        · rfl
        · rw [ih]
        · rw [ih]
        · split
          · rw [ih]
          · rw [ih]

/-- The final state and sender trace of the batch loop do not depend on
whether periodic syncs fail. -/
theorem dispatchLoop_syncFails_irrel (env : Env) (f : Nat → Bool) (fuel : Nat) :
    ∀ (st : AppState) (rem : List Msg) (a : Nat),
      (dispatchLoop { env with syncFails := f } fuel st rem a).st
        = (dispatchLoop env fuel st rem a).st ∧
      (dispatchLoop { env with syncFails := f } fuel st rem a).sends
        = (dispatchLoop env fuel st rem a).sends := by
  induction fuel with
  | zero =>
    intro st rem a
    exact ⟨rfl, rfl⟩
  | succ fuel ih =>
    intro st rem a
    simp only [dispatchLoop]
    split
    · exact ⟨rfl, rfl⟩
    · rw [processItems_syncFails_irrel]
      refine ⟨(ih _ _ _).1, ?_⟩
      rw [(ih _ _ _).2]

/-- Every recorded periodic sync happened at a batch index divisible by 3. -/
theorem dispatchLoop_sync_timing (env : Env) (fuel : Nat) :
    ∀ (st : AppState) (rem : List Msg) (a : Nat) (x : Nat × Bool),
      x ∈ (dispatchLoop env fuel st rem a).syncs → x.1 % 3 = 0 := by
  induction fuel with
  | zero =>
    intro st rem a x hx
    simp [dispatchLoop] at hx
  | succ fuel ih =>
    intro st rem a x hx
    simp only [dispatchLoop] at hx
    split at hx
    · simp at hx
    · rcases List.mem_append.mp hx with hh | ht
      · split at hh
        · rename_i hcond
          rcases List.mem_singleton.mp hh with rfl
          exact hcond.1
        · simp at hh
      · exact ih _ _ _ x ht

/-- Threading any sequence of SDK outcomes through `sendMessage` grows the
counter sum by exactly the number of calls. -/
theorem runSends_total (rs : List SdkResult) :
    ∀ m : Metrics, (runSends m rs).successCount + (runSends m rs).errorCount
      = m.successCount + m.errorCount + rs.length := by
  induction rs with
  | nil =>
    intro m
    simp [runSends]
  | cons r rest ih =>
    intro m
    have hstep : runSends m (r :: rest) = runSends (sendMessage m r).1 rest := rfl
    rw [hstep, ih]
    cases r <;> simp [sendMessage] <;> omega

end Kingslist

namespace Kingslist

/-- Claim C1: for every run and every item whose identifier is already in the
succeeded set (`processedMessages`), the engine never invokes the sender for
that item again — the per-item guard of test.js line 212 filters by set
membership on every pass, and membership (which is monotone across the run)
alone decides that an item is done. -/
theorem dispatch_idempotent_no_resend (env : Env) (fuel : Nat) (st : AppState)
    (rem : List Msg) (a id : Nat) (h : id ∈ st.processedMessages) :
    id ∉ (dispatchLoop env fuel st rem a).sends ∧
    id ∈ (dispatchLoop env fuel st rem a).st.processedMessages :=
  dispatchLoop_no_resend env fuel st rem a id h

/-- Witness for C1: a run over a queue still containing item 7, with item 7
already recorded as succeeded, never sends to 7. -/
theorem dispatch_idempotent_no_resend_witness :
    7 ∉ (dispatchLoop rateLimitEnv 3 processedSevenState
          [⟨7, ""⟩, ⟨1, ""⟩] 0).sends ∧
    7 ∈ (dispatchLoop rateLimitEnv 3 processedSevenState
          [⟨7, ""⟩, ⟨1, ""⟩] 0).st.processedMessages :=
  dispatch_idempotent_no_resend rateLimitEnv 3 processedSevenState
    [⟨7, ""⟩, ⟨1, ""⟩] 0 7 (by decide)

/-- Claim C3: `calculateDelay` is the pure function
`exponential ? min(baseDelay * 2^attempt, maxDelay) : baseDelay` of the
attempt index and the immutable config; it is non-decreasing in the attempt
index, and with the repository's config (exponential, maxDelay 30000) it never
exceeds `MAX_RETRY_DELAY_MS`. -/
theorem backoff_policy_spec :
    (∀ (cfg : RateLimitConfig) (i : Nat),
        calculateDelay cfg i =
          if cfg.RETRY_EXPONENTIAL_BACKOFF then
            min (cfg.BASE_DELAY_MS * 2 ^ i) cfg.MAX_RETRY_DELAY_MS
          else cfg.BASE_DELAY_MS) ∧
    (∀ (cfg : RateLimitConfig) (i j : Nat), i ≤ j →
        calculateDelay cfg i ≤ calculateDelay cfg j) ∧
    (∀ i : Nat,
        calculateDelay RATE_LIMIT_CONFIG i ≤ RATE_LIMIT_CONFIG.MAX_RETRY_DELAY_MS) := by
  refine ⟨?_, ?_, ?_⟩
  · intro cfg i
    cases h : cfg.RETRY_EXPONENTIAL_BACKOFF <;> simp [calculateDelay, h]
  · intro cfg i j hij
    cases h : cfg.RETRY_EXPONENTIAL_BACKOFF <;> simp only [calculateDelay, h]
    · simp
    · simp only [Bool.not_true, if_neg]
      refine min_le_min ?_ le_rfl
      exact Nat.mul_le_mul_left _ (Nat.pow_le_pow_right (by norm_num) hij)
  · intro i
    simp only [calculateDelay, RATE_LIMIT_CONFIG]
    exact min_le_right _ _

/-- Witness for C3: the delay for the second attempt is at most the delay for
the fifth. -/
theorem backoff_policy_spec_witness :
    calculateDelay RATE_LIMIT_CONFIG 1 ≤ calculateDelay RATE_LIMIT_CONFIG 4 :=
  backoff_policy_spec.2.1 RATE_LIMIT_CONFIG 1 4 (by decide)

/-- Claim C5: the guard of test.js line 151 rejects a dispatch invocation
while a run is already dispatching (running or paused): the call returns with
the component state untouched, no sender calls, no syncs, no report and no
completion marker, so the first run proceeds unaffected. -/
theorem reentrancy_guard_rejects (env : Env) (fuel : Nat) (st0 : AppState)
    (h : st0.dispatching = true) :
    handleDispatch env fuel st0 = ⟨st0, .rejected, [], [], none, false⟩ := by
  unfold handleDispatch
  rw [if_pos (Or.inl h)]

/-- Witness for C5: invoking dispatch while a run is active changes nothing
and sends nothing. -/
theorem reentrancy_guard_rejects_witness :
    handleDispatch rateLimitEnv 10 { initialAppState with dispatching := true }
      = ⟨{ initialAppState with dispatching := true }, .rejected, [], [], none, false⟩ :=
  reentrancy_guard_rejects rateLimitEnv 10
    { initialAppState with dispatching := true } rfl

/-- Claim C10: every `sendMessage` call increments exactly one module counter
(`successCount` on a resolved SDK call, `errorCount` on a rejected one, whose
error is re-thrown), so after any sequence of calls
`getMessageMetrics().totalProcessed` equals the old total plus the number of
calls; `resetMessageMetrics` restores both counters to zero, and the counters
persist across jobs (they thread through every call) unless reset. -/
theorem message_metrics_invariant (m : Metrics) (e : String) (rs : List SdkResult) :
    sendMessage m .resolved
      = ({ m with successCount := m.successCount + 1 }, .ok ()) ∧
    sendMessage m (.rejected e)
      = ({ m with errorCount := m.errorCount + 1 },
          .error ("Failed to send message: " ++ e)) ∧
    (getMessageMetrics (runSends m rs)).totalProcessed
      = (getMessageMetrics m).totalProcessed + rs.length ∧
    getMessageMetrics resetMessageMetrics = ⟨0, 0, 0⟩ := by
  refine ⟨rfl, rfl, ?_, rfl⟩
  simpa [getMessageMetrics] using runSends_total rs m

end Kingslist

namespace Kingslist

/-- Claim C2 (amended): non-forced status reports in test.js declare complete
(wire status 2) exactly when the claimed predicate holds (`processed ≥ total`
with no failures, or `processed + failed ≥ total`); but the final report
passes `forceComplete = true` and declares complete unconditionally, and the
test2.js variant instead declares complete exactly when `failed = 0` or
`processed ≥ total`. -/
theorem status_report_predicate (p f t : Nat) :
    (updateDispatchStatusCode false p f t = 2 ↔ specCompletionPredicate p f t) ∧
    updateDispatchStatusCode true p f t = 2 ∧
    (updateDispatchStatusCode2 p f t = 2 ↔ (f = 0 ∨ p ≥ t)) := by
  refine ⟨?_, ?_, ?_⟩
  · simp only [updateDispatchStatusCode, isComplete, specCompletionPredicate,
      Bool.false_or, Bool.or_eq_true, Bool.and_eq_true, decide_eq_true_eq]
    split <;> omega
  · simp [updateDispatchStatusCode, isComplete]
  · simp only [updateDispatchStatusCode2]
    split <;> omega

/-- Claim C2 counterexample: a run over a single message whose send resolves
with `success = false` terminates with 0 processed, 0 failed, total 1 — the
claimed completion predicate is false — yet the final (forced) report declares
wire status 2 and the completion marker is set; the test2.js variant likewise
reports 2 at a state (0 processed, 0 failed, 5 total) where the predicate is
false. -/
theorem status_report_counterexample :
    (handleDispatch softFailEnv 10 initialAppState).finalStatus = some 2 ∧
    (handleDispatch softFailEnv 10 initialAppState).completedMarker = true ∧
    (handleDispatch softFailEnv 10 initialAppState).st.processedMessages.length = 0 ∧
    (handleDispatch softFailEnv 10 initialAppState).st.failed = 0 ∧
    (handleDispatch softFailEnv 10 initialAppState).st.total = 1 ∧
    ¬ specCompletionPredicate 0 0 1 ∧
    updateDispatchStatusCode2 0 0 5 = 2 ∧
    ¬ specCompletionPredicate 0 0 5 := by
  decide

/-- Claim C4 (amended): in test.js, an item that fails retriably with a retry
count below `MAX_RETRY_ATTEMPTS` is re-enqueued at the front of the remaining
queue with counters untouched, and once the count reaches the limit it is
counted failed and processed instead of being re-enqueued; the test2.js
variant applies the same limit test (with its `MAX_RETRY_ATTEMPTS = 1`) but
appends the retried item to the back of the remaining queue. -/
theorem retry_requeue_policy (env : Env) (st : AppState) (msg : Msg)
    (rem : List Msg) (rl : Bool)
    (hab : st.aborted = false)
    (hmem : msg.kc_id ∉ st.processedMessages)
    (hwait : env.abortsBefore msg (st.retryCounts msg.kc_id) = false)
    (hsend : env.sender msg (st.retryCounts msg.kc_id) = .err rl) :
    ((st.retryCounts msg.kc_id < RATE_LIMIT_CONFIG.MAX_RETRY_ATTEMPTS →
        (processItems env st [msg] rem).rem = msg :: rem ∧
        (processItems env st [msg] rem).st.failed = st.failed ∧
        (processItems env st [msg] rem).st.current = st.current ∧
        (processItems env st [msg] rem).st.processedMessages = st.processedMessages) ∧
      (RATE_LIMIT_CONFIG.MAX_RETRY_ATTEMPTS ≤ st.retryCounts msg.kc_id →
        (processItems env st [msg] rem).rem = rem ∧
        (processItems env st [msg] rem).st.failed = st.failed + 1 ∧
        (processItems env st [msg] rem).st.current = st.current + 1)) ∧
    (∀ (rc : Nat → Nat) (p : Progress2) (m : Msg) (q : List Msg),
        (rc m.kc_id < 1 → retryFailedMessage2 rc p m q = (p, q ++ [m])) ∧
        (1 ≤ rc m.kc_id →
          retryFailedMessage2 rc p m q
            = ({ current := p.current + 1, failed := p.failed + 1 }, q))) := by
  constructor
  · have hred : processItems env st [msg] rem =
        (if st.retryCounts msg.kc_id < RATE_LIMIT_CONFIG.MAX_RETRY_ATTEMPTS then
          ⟨if rl then { st with rateLimited := st.rateLimited + 1 } else st,
            msg :: rem, [msg.kc_id]⟩
        else
          ⟨{ (if rl then { st with rateLimited := st.rateLimited + 1 } else st) with
              current := st.current + 1, failed := st.failed + 1 },
            rem, [msg.kc_id]⟩) := by
      simp only [processItems, hsend]
      rw [if_neg (by simp [hmem, hab]), if_neg (by simp [hwait])]
      split
      · cases rl <;> rfl
      · cases rl <;> rfl
    constructor
    · intro hlt
      rw [hred, if_pos hlt]
      cases rl <;> exact ⟨rfl, rfl, rfl, rfl⟩
    · intro hge
      rw [hred, if_neg (Nat.not_lt.mpr hge)]
      cases rl <;> exact ⟨rfl, rfl, rfl⟩
  · intro rc p m q
    constructor
    · intro h
      unfold retryFailedMessage2
      rw [if_pos h]
    · intro h
      unfold retryFailedMessage2
      rw [if_neg (Nat.not_lt.mpr h)]

/-- Witness for C4: with one recorded attempt (below the limit of 3) and a
rejected send, the item returns to the front of the remaining queue and no
counter moves. -/
theorem retry_requeue_policy_witness :
    (processItems alwaysErrEnv oneAttemptState [⟨3, ""⟩] [⟨4, ""⟩]).rem
        = ⟨3, ""⟩ :: [⟨4, ""⟩] ∧
    (processItems alwaysErrEnv oneAttemptState [⟨3, ""⟩] [⟨4, ""⟩]).st.failed
        = oneAttemptState.failed ∧
    (processItems alwaysErrEnv oneAttemptState [⟨3, ""⟩] [⟨4, ""⟩]).st.current
        = oneAttemptState.current ∧
    (processItems alwaysErrEnv oneAttemptState [⟨3, ""⟩] [⟨4, ""⟩]).st.processedMessages
        = oneAttemptState.processedMessages :=
  (retry_requeue_policy alwaysErrEnv oneAttemptState ⟨3, ""⟩ [⟨4, ""⟩] false
      rfl (by decide) rfl rfl).1.1 (by decide)

/-- Claim C4 counterexample: in the test2.js variant (lines 151-160) a
retriable failure is `push`ed to the BACK of the remaining queue, not the
front. -/
theorem retry_front_counterexample :
    (retryFailedMessage2 (fun _ => 0) ⟨0, 0⟩ ⟨3, ""⟩ [⟨4, ""⟩]).2
        = [⟨4, ""⟩, ⟨3, ""⟩] ∧
    (retryFailedMessage2 (fun _ => 0) ⟨0, 0⟩ ⟨3, ""⟩ [⟨4, ""⟩]).2
        ≠ [⟨3, ""⟩, ⟨4, ""⟩] := by
  decide

/-- Claim C6: once the abort signal is observed the batch loop and the item
loop stop without any further sender call and with the accumulated progress
(processed set, success and failed counters) preserved; concretely, a
cancellation observed after 2 of 10 items leaves a cancelled terminal outcome,
exactly the two sender calls made before cancellation, two terminal items and
no completion marker. -/
theorem cancellation_halts :
    (∀ (env : Env) (fuel : Nat) (st : AppState) (rem : List Msg) (a : Nat),
        st.aborted = true → dispatchLoop env fuel st rem a = ⟨st, [], []⟩) ∧
    (∀ (env : Env) (st : AppState) (batch rem : List Msg),
        st.aborted = true → processItems env st batch rem = ⟨st, rem, []⟩) ∧
    ((handleDispatch cancelEnv 10 initialAppState).outcome = .cancelled ∧
      (handleDispatch cancelEnv 10 initialAppState).sends = [1, 2] ∧
      (handleDispatch cancelEnv 10 initialAppState).st.processedMessages.length
          + (handleDispatch cancelEnv 10 initialAppState).st.failed = 2 ∧
      (handleDispatch cancelEnv 10 initialAppState).st.success = 2 ∧
      (handleDispatch cancelEnv 10 initialAppState).completedMarker = false) := by
  refine ⟨?_, ?_, ?_⟩
  · intro env fuel st rem a h
    exact dispatchLoop_aborted env fuel st rem a h
  · intro env st batch rem h
    exact processItems_aborted env batch st rem h
  · decide

/-- Witness for C6: from a state whose abort signal has fired, the loop
returns at once with no sends. -/
theorem cancellation_halts_witness :
    dispatchLoop rateLimitEnv 4 abortedState [⟨1, ""⟩] 0 = ⟨abortedState, [], []⟩ :=
  cancellation_halts.1 rateLimitEnv 4 abortedState [⟨1, ""⟩] 0 rfl

/-- Claim C7: in the five-item run where the sender reports a rate limit for
item 3 on its first attempt and succeeds on its second, the terminal state has
`rateLimited = 1`, item 3 in the processed set, a recorded attempt count of 2
for item 3, all five items succeeded and none failed. -/
theorem rate_limited_retry_scenario :
    (handleDispatch rateLimitEnv 10 initialAppState).st.rateLimited = 1 ∧
    3 ∈ (handleDispatch rateLimitEnv 10 initialAppState).st.processedMessages ∧
    (handleDispatch rateLimitEnv 10 initialAppState).st.retryCounts 3 = 2 ∧
    (handleDispatch rateLimitEnv 10 initialAppState).st.success = 5 ∧
    (handleDispatch rateLimitEnv 10 initialAppState).st.failed = 0 ∧
    (handleDispatch rateLimitEnv 10 initialAppState).outcome = .completed := by
  decide

/-- Claim C8: when the batch fetch yields no messages (missing or empty list)
dispatch fails with an error, performs no sender call, leaves no job state
(all counters zero, empty processed set, total 0), sends no report and never
sets the completion marker. -/
theorem empty_batch_validation (env : Env) (fuel : Nat) (st0 : AppState)
    (hd : st0.dispatching = false) (hp : st0.processedMessages = [])
    (he : env.batchMessages = none ∨ env.batchMessages = some []) :
    (∃ m, (handleDispatch env fuel st0).outcome = .dispatchError m) ∧
    (handleDispatch env fuel st0).sends = [] ∧
    (handleDispatch env fuel st0).completedMarker = false ∧
    (handleDispatch env fuel st0).finalStatus = none ∧
    (handleDispatch env fuel st0).st.total = 0 ∧
    (handleDispatch env fuel st0).st.processedMessages = [] ∧
    (handleDispatch env fuel st0).st.success = 0 ∧
    (handleDispatch env fuel st0).st.failed = 0 := by
  have hguard : ¬(st0.dispatching = true ∨ st0.processedMessages ≠ []) := by
    simp [hd, hp]
  rcases he with he | he <;>
    · unfold handleDispatch
      rw [if_neg hguard, he]
      exact ⟨⟨_, rfl⟩, rfl, rfl, rfl, rfl, rfl, rfl, rfl⟩

/-- Environment whose batch fetch returns an empty message list; used by the
C8 witness. -/
def emptyBatchEnv : Env :=
  { batchMessages := some []
    sender := fun _ _ => .ok true
    abortsBefore := fun _ _ => false
    syncFails := fun _ => false
    finalReportFails := false }

/-- Witness for C8: dispatching against an empty batch errors out with no
state and no completion. -/
theorem empty_batch_validation_witness :
    (∃ m, (handleDispatch emptyBatchEnv 5 initialAppState).outcome = .dispatchError m) ∧
    (handleDispatch emptyBatchEnv 5 initialAppState).sends = [] ∧
    (handleDispatch emptyBatchEnv 5 initialAppState).completedMarker = false ∧
    (handleDispatch emptyBatchEnv 5 initialAppState).finalStatus = none ∧
    (handleDispatch emptyBatchEnv 5 initialAppState).st.total = 0 ∧
    (handleDispatch emptyBatchEnv 5 initialAppState).st.processedMessages = [] ∧
    (handleDispatch emptyBatchEnv 5 initialAppState).st.success = 0 ∧
    (handleDispatch emptyBatchEnv 5 initialAppState).st.failed = 0 :=
  empty_batch_validation emptyBatchEnv 5 initialAppState rfl rfl (Or.inr rfl)

/-- Claim C9: the periodic status sync fires exactly at batch indices
divisible by 3 (so after the 1st, 4th, 7th... batch), and a failed mid-run
sync neither changes the engine state nor the sender trace — the run with a
failing sync is indistinguishable from one with a succeeding sync; in the
concrete 20-item run the first sync fails and the run still completes with all
20 items sent. -/
theorem periodic_sync_best_effort :
    (∀ (env : Env) (f : Nat → Bool) (fuel : Nat) (st : AppState)
        (rem : List Msg) (a : Nat),
        (dispatchLoop { env with syncFails := f } fuel st rem a).st
            = (dispatchLoop env fuel st rem a).st ∧
        (dispatchLoop { env with syncFails := f } fuel st rem a).sends
            = (dispatchLoop env fuel st rem a).sends) ∧
    (∀ (env : Env) (fuel : Nat) (st : AppState) (rem : List Msg) (a : Nat)
        (x : Nat × Bool),
        x ∈ (dispatchLoop env fuel st rem a).syncs → x.1 % 3 = 0) ∧
    ((handleDispatch syncFailEnv 10 initialAppState).syncs = [(0, true), (3, false)] ∧
      (handleDispatch syncFailEnv 10 initialAppState).outcome = .completed ∧
      (handleDispatch syncFailEnv 10 initialAppState).st.success = 20) := by
  refine ⟨?_, ?_, ?_⟩
  · intro env f fuel st rem a
    exact dispatchLoop_syncFails_irrel env f fuel st rem a
  · intro env fuel st rem a x hx
    exact dispatchLoop_sync_timing env fuel st rem a x hx
  · decide

/-- Witness for C9: the sync recorded in a small concrete run happened at a
batch index divisible by 3. -/
theorem periodic_sync_best_effort_witness :
    ((0 : Nat), true).1 % 3 = 0 :=
  periodic_sync_best_effort.2.1 syncFailEnv 2 initialAppState [⟨1, ""⟩] 0
    ((0 : Nat), true) (by decide)

end Kingslist
